import Mathlib

/-!
Verification of the session/token lifecycle of `ReownAppKitService`
(projects/reown-appkit/src/lib, service accompanying `reown-appkit.component.spec.ts`).

The service is a TypeScript/Angular class.  We embed it shallowly:

* `localStorage` under the single key `reown_token` is `Option RawStored`;
  `RawStored` classifies what the stored string does when the service reads it
  back, following the JavaScript semantics of `getStoredToken` line by line:
  - `empty`        : the stored string is `""`; `if (!tokenStr) return null`
                     fires because the empty string is falsy, so the function
                     returns `null` WITHOUT removing the key;
  - `unparseable`  : `JSON.parse` throws, or parses to `null` so that the
                     subsequent property access `token.expiresAt` throws; the
                     `catch` block runs `clearSession()` and returns `null`;
  - `noDate t b`   : `JSON.parse` succeeds but `new Date(token.expiresAt)` is
                     an Invalid Date (e.g. the value `{}`); in JavaScript
                     `InvalidDate < new Date()` compares `NaN` and is `false`,
                     so the expiry check does NOT fire and the parsed value is
                     returned as-is.  `t` records whether that value is truthy
                     (`{}` is, the number `0` is not) and `b` records the
                     string `token.token` interpolates to in a template
                     literal (`"undefined"` when the field is absent);
  - `dated tok`    : `JSON.parse` yields an object whose `expiresAt` converts
                     to a valid Date; `tok.expiresAt` is that timestamp in
                     milliseconds and `tok.token` the interpolated token field.

* the two `BehaviorSubject`s are `Option` fields of `ServiceState`;
* each HTTP exchange outcome is an explicit `HttpResult` argument;
* `Date` timestamps are `Int` milliseconds; "now" is an explicit argument;
* rxjs `throwError` becomes `Except.error`.
-/

structure ReownConfig where
  apiKey : String
  organizationId : Option String
  environment : Option String
  baseUrl : Option String
deriving DecidableEq, Repr

structure ReownUser where
  id : String
  email : String
  firstName : Option String
  lastName : Option String
deriving DecidableEq, Repr

structure ReownSession where
  id : String
  userId : String
  expiresAt : Int
deriving DecidableEq, Repr

structure ReownToken where
  token : String
  expiresAt : Int
deriving DecidableEq, Repr

/-- Classification of the raw string stored under `reown_token`, by how
`getStoredToken` behaves on it (see the module docstring). -/
inductive RawStored where
  | empty : RawStored
  | unparseable : RawStored
  | noDate (truthy : Bool) (bearer : String) : RawStored
  | dated (tok : ReownToken) : RawStored
deriving DecidableEq, Repr

/-- The value `getStoredToken` returns when it does not return `null`:
either the parsed non-token-shaped JSON value (`odd`), or a token-shaped
object (`tok`).  `odd` keeps its JavaScript truthiness and the string its
`token` field interpolates to. -/
inductive ParsedVal where
  | odd (truthy : Bool) (bearer : String) : ParsedVal
  | tok (t : ReownToken) : ParsedVal
deriving DecidableEq, Repr

def ParsedVal.isTruthy : ParsedVal → Bool
  | .odd t _ => t
  | .tok _ => true

def ParsedVal.bearerStr : ParsedVal → String
  | .odd _ b => b
  | .tok t => t.token

/-- The mutable state of the service: the two `BehaviorSubject` values and
the `localStorage` slot for `reown_token`. -/
structure ServiceState where
  currentUser : Option ReownUser
  currentSession : Option ReownSession
  storage : Option RawStored
deriving DecidableEq, Repr

/-- `clearSession()`: `localStorage.removeItem(key)` then push `null` on both
subjects. -/
def clearSession (_st : ServiceState) : ServiceState :=
  { currentUser := none, currentSession := none, storage := none }

/-- `setToken(token)`: `localStorage.setItem(key, JSON.stringify(token))`.
A `JSON.stringify`/`JSON.parse` round trip of a well-formed token yields a
value whose `expiresAt` converts to the same valid Date, so the slot holds
`RawStored.dated token`. -/
def setToken (tok : ReownToken) (st : ServiceState) : ServiceState :=
  { st with storage := some (RawStored.dated tok) }

/-- `getStoredToken()`: read the raw string; falsy (absent or empty) returns
`null` with no side effect; a parse/property-access failure clears the
session; a parsed value with a valid `expiresAt` strictly before now clears
the session; otherwise the parsed value is returned. -/
def getStoredToken (now : Int) (st : ServiceState) : Option ParsedVal × ServiceState :=
  match st.storage with
  | none => (none, st)
  | some RawStored.empty => (none, st)
  | some RawStored.unparseable => (none, clearSession st)
  | some (RawStored.noDate t b) => (some (ParsedVal.odd t b), st)
  | some (RawStored.dated tok) =>
      if tok.expiresAt < now then (none, clearSession st)
      else (some (ParsedVal.tok tok), st)

/-- The headers record built by `getHeaders`; `none` means the header is
absent from the record. -/
structure HeadersRec where
  contentType : String
  xApiKey : String
  xOrganizationId : Option String
  authorization : Option String
deriving DecidableEq, Repr

/-- `getHeaders()`: always `Content-Type` and `X-API-Key`;
`X-Organization-ID` when `config.organizationId` is truthy (present and
non-empty); `Authorization: Bearer <token.token>` when `getStoredToken()`
returns a truthy value.  Calling it performs `getStoredToken`'s side
effect. -/
def getHeaders (cfg : ReownConfig) (now : Int) (st : ServiceState) :
    HeadersRec × ServiceState :=
  let orgHdr : Option String :=
    match cfg.organizationId with
    | some s => if s.isEmpty then none else some s
    | none => none
  let r := getStoredToken now st
  let auth : Option String :=
    match r.1 with
    | some v => if v.isTruthy then some ("Bearer " ++ v.bearerStr) else none
    | none => none
  ({ contentType := "application/json", xApiKey := cfg.apiKey,
     xOrganizationId := orgHdr, authorization := auth }, r.2)

/-- Outcome of one HTTP exchange, supplied by the environment.  `failure`
carries `error.message` (`none` when absent; `some ""` is a present but
falsy message). -/
inductive HttpResult (α : Type) where
  | success (a : α) : HttpResult α
  | failure (message : Option String) : HttpResult α

/-- JavaScript `error.message || fallback`: the fallback is used when the
message is absent or falsy (the empty string). -/
def jsOr (m : Option String) (d : String) : String :=
  match m with
  | some s => if s.isEmpty then d else s
  | none => d

structure SignUpResponse where
  user : ReownUser
  token : ReownToken
deriving DecidableEq, Repr

structure SignInResponse where
  user : ReownUser
  session : ReownSession
  token : ReownToken
deriving DecidableEq, Repr

/-- `signUp`: build headers (side-effecting), send `POST /users`; on success
store the token and push the user; on failure rethrow
`error.message || 'Sign up failed'` with no further state change. -/
def signUp (cfg : ReownConfig) (now : Int) (resp : HttpResult SignUpResponse)
    (st : ServiceState) : Except String ReownUser × ServiceState :=
  let st1 := (getHeaders cfg now st).2
  match resp with
  | .success r =>
      let st2 := setToken r.token st1
      (Except.ok r.user, { st2 with currentUser := some r.user })
  | .failure msg => (Except.error (jsOr msg "Sign up failed"), st1)

/-- `signIn`: build headers (side-effecting), send `POST /sessions`; on
success store the token and push user and session; on failure rethrow
`error.message || 'Sign in failed'` with no further state change. -/
def signIn (cfg : ReownConfig) (now : Int) (resp : HttpResult SignInResponse)
    (st : ServiceState) : Except String ReownSession × ServiceState :=
  let st1 := (getHeaders cfg now st).2
  match resp with
  | .success r =>
      let st2 := setToken r.token st1
      (Except.ok r.session,
       { st2 with currentUser := some r.user, currentSession := some r.session })
  | .failure msg => (Except.error (jsOr msg "Sign in failed"), st1)

/-- `signOut`: when no current session exists, clear locally and resolve
without an HTTP call; otherwise build headers (side-effecting), send
`DELETE /sessions/{id}`, and clear the session whether the call succeeds
(`tap`) or fails (`catchError` returning `of(undefined)`).  The Boolean
records whether an HTTP request was issued; the result is always `ok`. -/
def signOut (cfg : ReownConfig) (now : Int) (resp : HttpResult Unit)
    (st : ServiceState) : Except String Unit × Bool × ServiceState :=
  match st.currentSession with
  | none => (Except.ok (), false, clearSession st)
  | some _ =>
      let st1 := (getHeaders cfg now st).2
      match resp with
      | .success _ => (Except.ok (), true, clearSession st1)
      | .failure _ => (Except.ok (), true, clearSession st1)

/-- `getUser`: build headers (side-effecting), send `GET /users/me`; on
success push the user; on failure rethrow `error.message || 'Get user
failed'`. -/
def getUser (cfg : ReownConfig) (now : Int) (resp : HttpResult ReownUser)
    (st : ServiceState) : Except String ReownUser × ServiceState :=
  let st1 := (getHeaders cfg now st).2
  match resp with
  | .success u => (Except.ok u, { st1 with currentUser := some u })
  | .failure msg => (Except.error (jsOr msg "Get user failed"), st1)

/-- `updateUser`: build headers (side-effecting), send `PATCH /users/me`; on
success push the (server-merged) user; on failure rethrow
`error.message || 'Update user failed'`. -/
def updateUser (cfg : ReownConfig) (now : Int) (resp : HttpResult ReownUser)
    (st : ServiceState) : Except String ReownUser × ServiceState :=
  let st1 := (getHeaders cfg now st).2
  match resp with
  | .success u => (Except.ok u, { st1 with currentUser := some u })
  | .failure msg => (Except.error (jsOr msg "Update user failed"), st1)

/-- `requestPasswordReset`: headers (side-effecting) then `POST
/password-reset`; no state change on success; on failure rethrow
`error.message || 'Request password reset failed'`. -/
def requestPasswordReset (cfg : ReownConfig) (now : Int)
    (resp : HttpResult Unit) (st : ServiceState) :
    Except String Unit × ServiceState :=
  let st1 := (getHeaders cfg now st).2
  match resp with
  | .success _ => (Except.ok (), st1)
  | .failure msg => (Except.error (jsOr msg "Request password reset failed"), st1)

/-- `resetPassword`: headers (side-effecting) then `POST
/password-reset/confirm`; no state change on success; on failure rethrow
`error.message || 'Reset password failed'`. -/
def resetPassword (cfg : ReownConfig) (now : Int) (resp : HttpResult Unit)
    (st : ServiceState) : Except String Unit × ServiceState :=
  let st1 := (getHeaders cfg now st).2
  match resp with
  | .success _ => (Except.ok (), st1)
  | .failure msg => (Except.error (jsOr msg "Reset password failed"), st1)

/-- `isAuthenticated()`: `!!currentUserSubject.value && !!getStoredToken()`.
JavaScript `&&` short-circuits: when the current user is `null`,
`getStoredToken` is not called and no side effect occurs. -/
def isAuthenticated (now : Int) (st : ServiceState) : Bool × ServiceState :=
  match st.currentUser with
  | none => (false, st)
  | some _ =>
      let r := getStoredToken now st
      ((match r.1 with
        | none => false
        | some v => v.isTruthy), r.2)

/-- The state right after the constructor: both subjects start at `null`
over whatever `localStorage` already holds, and `restoreSession()` runs
`getStoredToken` (possibly clearing).  The `getUser().subscribe()` it may
issue completes later as an ordinary `getUser` step. -/
def constructorInit (raw : Option RawStored) (t0 : Int) : ServiceState :=
  (getStoredToken t0 { currentUser := none, currentSession := none, storage := raw }).2

/-- A currently-valid token is persisted: the slot holds a dated token whose
`expiresAt` is not strictly before `now`. -/
def validTokenStoredB (now : Int) (st : ServiceState) : Bool :=
  match st.storage with
  | some (RawStored.dated tok) => if tok.expiresAt < now then false else true
  | _ => false

/-- The spec's session invariant: the current user is non-null only if a
non-expired token exists in persistence. -/
def SessionInv (now : Int) (st : ServiceState) : Prop :=
  st.currentUser ≠ none → validTokenStoredB now st = true

/-- One service operation performed at time `now` with an arbitrary
environment response; relates the state before to the state after. -/
inductive Step (cfg : ReownConfig) : Int → ServiceState → ServiceState → Prop where
  | signUpStep (now : Int) (resp : HttpResult SignUpResponse) (st : ServiceState) :
      Step cfg now st (signUp cfg now resp st).2
  | signInStep (now : Int) (resp : HttpResult SignInResponse) (st : ServiceState) :
      Step cfg now st (signIn cfg now resp st).2
  | signOutStep (now : Int) (resp : HttpResult Unit) (st : ServiceState) :
      Step cfg now st (signOut cfg now resp st).2.2
  | getUserStep (now : Int) (resp : HttpResult ReownUser) (st : ServiceState) :
      Step cfg now st (getUser cfg now resp st).2
  | updateUserStep (now : Int) (resp : HttpResult ReownUser) (st : ServiceState) :
      Step cfg now st (updateUser cfg now resp st).2
  | requestPasswordResetStep (now : Int) (resp : HttpResult Unit) (st : ServiceState) :
      Step cfg now st (requestPasswordReset cfg now resp st).2
  | resetPasswordStep (now : Int) (resp : HttpResult Unit) (st : ServiceState) :
      Step cfg now st (resetPassword cfg now resp st).2
  | isAuthenticatedStep (now : Int) (st : ServiceState) :
      Step cfg now st (isAuthenticated now st).2
  | readStep (now : Int) (st : ServiceState) :
      Step cfg now st (getStoredToken now st).2

/-- States reachable from construction by any sequence of operations, with
an unconstrained environment.  The `Int` index is the time of the last
operation. -/
inductive Reachable (cfg : ReownConfig) : Int → ServiceState → Prop where
  | init (raw : Option RawStored) (t0 : Int) : Reachable cfg t0 (constructorInit raw t0)
  | step {t : Int} {st : ServiceState} {t' : Int} {st' : ServiceState} :
      Reachable cfg t st → Step cfg t' st st' → Reachable cfg t' st'

/-- Operations under the environment assumptions that make the session
invariant hold: successful sign-up/sign-in responses carry a token not yet
expired, and `GET /users/me` / `PATCH /users/me` succeed only when a valid
token was persisted at call time. -/
inductive GStep (cfg : ReownConfig) : Int → ServiceState → ServiceState → Prop where
  | signUpOk (now : Int) (r : SignUpResponse) (st : ServiceState)
      (hv : ¬ r.token.expiresAt < now) :
      GStep cfg now st (signUp cfg now (HttpResult.success r) st).2
  | signUpFail (now : Int) (msg : Option String) (st : ServiceState) :
      GStep cfg now st (signUp cfg now (HttpResult.failure msg) st).2
  | signInOk (now : Int) (r : SignInResponse) (st : ServiceState)
      (hv : ¬ r.token.expiresAt < now) :
      GStep cfg now st (signIn cfg now (HttpResult.success r) st).2
  | signInFail (now : Int) (msg : Option String) (st : ServiceState) :
      GStep cfg now st (signIn cfg now (HttpResult.failure msg) st).2
  | signOutStep (now : Int) (resp : HttpResult Unit) (st : ServiceState) :
      GStep cfg now st (signOut cfg now resp st).2.2
  | getUserOk (now : Int) (u : ReownUser) (st : ServiceState)
      (hv : validTokenStoredB now st = true) :
      GStep cfg now st (getUser cfg now (HttpResult.success u) st).2
  | getUserFail (now : Int) (msg : Option String) (st : ServiceState) :
      GStep cfg now st (getUser cfg now (HttpResult.failure msg) st).2
  | updateUserOk (now : Int) (u : ReownUser) (st : ServiceState)
      (hv : validTokenStoredB now st = true) :
      GStep cfg now st (updateUser cfg now (HttpResult.success u) st).2
  | updateUserFail (now : Int) (msg : Option String) (st : ServiceState) :
      GStep cfg now st (updateUser cfg now (HttpResult.failure msg) st).2
  | requestPasswordResetStep (now : Int) (resp : HttpResult Unit) (st : ServiceState) :
      GStep cfg now st (requestPasswordReset cfg now resp st).2
  | resetPasswordStep (now : Int) (resp : HttpResult Unit) (st : ServiceState) :
      GStep cfg now st (resetPassword cfg now resp st).2
  | isAuthenticatedStep (now : Int) (st : ServiceState) :
      GStep cfg now st (isAuthenticated now st).2
  | readStep (now : Int) (st : ServiceState) :
      GStep cfg now st (getStoredToken now st).2

/-- Reachability under the `GStep` environment assumptions. -/
inductive GReachable (cfg : ReownConfig) : Int → ServiceState → Prop where
  | init (raw : Option RawStored) (t0 : Int) : GReachable cfg t0 (constructorInit raw t0)
  | step {t : Int} {st : ServiceState} {t' : Int} {st' : ServiceState} :
      GReachable cfg t st → GStep cfg t' st st' → GReachable cfg t' st'

/-- Concrete objects used in closed instances. -/
def cfg0 : ReownConfig := { apiKey := "key", organizationId := none,
                            environment := none, baseUrl := none }

def cfgOrg : ReownConfig := { apiKey := "key", organizationId := some "org1",
                              environment := none, baseUrl := none }

def uA : ReownUser := { id := "u1", email := "u1@example.com",
                        firstName := none, lastName := none }

def sessA : ReownSession := { id := "s1", userId := "u1", expiresAt := 7200000 }

def signInRespW : SignInResponse :=
  { user := uA, session := sessA, token := { token := "t1", expiresAt := 3600000 } }

def tokExpired : ReownToken := { token := "tk", expiresAt := 0 }

def tokPast : ReownToken := { token := "tk", expiresAt := 5 }

/-- A state holding an expired stored token together with a signed-in user. -/
def stBefore : ServiceState :=
  { currentUser := some uA, currentSession := some sessA,
    storage := some (RawStored.dated tokExpired) }

/-- A state holding a currently valid stored token (any time up to 99). -/
def stValid : ServiceState :=
  { currentUser := some uA, currentSession := some sessA,
    storage := some (RawStored.dated { token := "tk", expiresAt := 99 }) }

/-- A state whose storage holds valid JSON that is not token shaped (for
example the string containing an empty object literal): truthy, with
`token.token` interpolating to `"undefined"`. -/
def stOdd : ServiceState :=
  { currentUser := some uA, currentSession := none,
    storage := some (RawStored.noDate true "undefined") }

/-- State after a `signUp` at time 10 whose response token expired at 5,
starting from a freshly constructed service over empty storage. -/
def badState : ServiceState :=
  (signUp cfg0 10 (HttpResult.success { user := uA, token := tokPast })
    (constructorInit none 0)).2

/-! ### Helper lemmas shared across several claims -/

theorem getHeaders_snd (cfg : ReownConfig) (now : Int) (st : ServiceState) :
    (getHeaders cfg now st).2 = (getStoredToken now st).2 := rfl

theorem read_state_of_valid (now : Int) (st : ServiceState)
    (h : validTokenStoredB now st = true) : (getStoredToken now st).2 = st := by
  obtain ⟨u, s, raw⟩ := st
  rcases raw with _ | (_ | _ | ⟨tb, bb⟩ | tok)
  · rfl
  · rfl
  · simp [validTokenStoredB] at h
  · rfl
  · by_cases hlt : tok.expiresAt < now
    · simp [validTokenStoredB, hlt] at h
    · simp [getStoredToken, hlt]

theorem read_pure (now : Int) (st : ServiceState)
    (h : st.storage = none ∨ st.storage = some RawStored.empty ∨
      (∃ tb bb, st.storage = some (RawStored.noDate tb bb)) ∨
      validTokenStoredB now st = true) :
    (getStoredToken now st).2 = st := by
  obtain ⟨u, s, raw⟩ := st
  rcases raw with _ | (_ | _ | ⟨tb, bb⟩ | tok)
  · rfl
  · rfl
  · rcases h with h | h | ⟨tb, bb, h⟩ | h <;> simp_all [validTokenStoredB]
  · rfl
  · exact read_state_of_valid now _ (by
      rcases h with h | h | ⟨tb, bb, h⟩ | h <;> simp_all)

theorem sessionInv_read (t now : Int) (st : ServiceState) (h : SessionInv t st) :
    SessionInv now (getStoredToken now st).2 := by
  obtain ⟨u, s, raw⟩ := st
  rcases raw with _ | (_ | _ | ⟨tb, bb⟩ | tok)
  · exact h
  · exact h
  · intro hne; exact absurd rfl hne
  · exact h
  · by_cases hlt : tok.expiresAt < now
    · intro hne
      rw [show (getStoredToken now ⟨u, s, some (RawStored.dated tok)⟩).2 =
          clearSession ⟨u, s, some (RawStored.dated tok)⟩ from by
        simp [getStoredToken, hlt]] at hne
      exact absurd rfl hne
    · intro _
      simp [getStoredToken, hlt, validTokenStoredB]

/-! ### Claims -/

/-- C1 (counterexample): the empty string is a persisted value on which
`JSON.parse` would fail, and `read()` returns null on it, but the storage
key is NOT cleared afterward: `if (!tokenStr) return null` fires on the
falsy empty string before any parsing or removal happens. -/
theorem C1_counterexample :
    (getStoredToken 0 ⟨none, none, some RawStored.empty⟩).1 = none ∧
    (getStoredToken 0 ⟨none, none, some RawStored.empty⟩).2.storage =
      some RawStored.empty :=
  ⟨rfl, rfl⟩

/-- C1 (amended): `read()` returns null when the stored value is absent,
empty, unparseable, or has `expiresAt` strictly before now; it clears the
stored value (key absent afterward, both subjects nulled) in the
unparseable and expired cases; when the value is absent it is unchanged
(so the key stays absent), but an empty-string value stays in storage. -/
theorem C1_read_amended (now : Int) (u : Option ReownUser) (s : Option ReownSession)
    (tok : ReownToken) :
    getStoredToken now ⟨u, s, none⟩ = (none, ⟨u, s, none⟩) ∧
    getStoredToken now ⟨u, s, some RawStored.empty⟩ =
      (none, ⟨u, s, some RawStored.empty⟩) ∧
    getStoredToken now ⟨u, s, some RawStored.unparseable⟩ =
      (none, ⟨none, none, none⟩) ∧
    (tok.expiresAt < now →
      getStoredToken now ⟨u, s, some (RawStored.dated tok)⟩ =
        (none, ⟨none, none, none⟩)) := by
  refine ⟨rfl, rfl, rfl, fun hlt => ?_⟩
  simp [getStoredToken, hlt, clearSession]

/-- C1 (witness): a token that expired at time 0, read at time 1, is
removed and null is returned. -/
theorem C1_read_amended_witness :
    (0 : Int) < 1 ∧
    getStoredToken 1 ⟨none, none, some (RawStored.dated ⟨"t", 0⟩)⟩ =
      (none, ⟨none, none, none⟩) :=
  ⟨by decide, (C1_read_amended 1 none none ⟨"t", 0⟩).2.2.2 (by decide)⟩

/-- C7 (counterexample): the stored value holding valid JSON that is not
token shaped (an empty object literal: truthy, `token` field absent) is
returned as parsed instead of null: `new Date(undefined)` is an Invalid
Date and its `NaN` comparison with now is false, so the expiry check does
not fire. -/
theorem C7_counterexample :
    (getStoredToken 0 ⟨none, none, some (RawStored.noDate true "undefined")⟩).1 =
      some (ParsedVal.odd true "undefined") ∧
    (getStoredToken 0 ⟨none, none, some (RawStored.noDate true "undefined")⟩).1 ≠
      none :=
  ⟨rfl, fun h => Option.noConfusion h⟩

/-- C7 (amended): `read()` never throws (it is a total function); it
returns null on the empty string and on values whose parsing or property
access throws (clearing storage in the latter case); but a stored value
that parses as valid JSON without a valid `expiresAt` date is returned
as parsed, not null. -/
theorem C7_read_malformed_amended (now : Int) (u : Option ReownUser)
    (s : Option ReownSession) (tb : Bool) (bb : String) :
    (getStoredToken now ⟨u, s, some RawStored.empty⟩).1 = none ∧
    (getStoredToken now ⟨u, s, some RawStored.unparseable⟩).1 = none ∧
    (getStoredToken now ⟨u, s, some RawStored.unparseable⟩).2.storage = none ∧
    (getStoredToken now ⟨u, s, some (RawStored.noDate tb bb)⟩).1 =
      some (ParsedVal.odd tb bb) :=
  ⟨rfl, rfl, rfl, rfl⟩

/-- C9: when no current session exists, `signOut` resolves immediately
(`of(undefined)`) without issuing any HTTP request (the Boolean), and
afterward the current user, the current session, and the stored token are
all null. -/
theorem C9_signOut_no_session (cfg : ReownConfig) (now : Int)
    (resp : HttpResult Unit) (st : ServiceState)
    (h : st.currentSession = none) :
    signOut cfg now resp st = (Except.ok (), false, ⟨none, none, none⟩) := by
  obtain ⟨u, s, raw⟩ := st
  cases s with
  | none => rfl
  | some s0 => exact Option.noConfusion h

/-- C9 (witness): signing out of a session-less state with a stored empty
string and a non-null user clears everything without an HTTP call. -/
theorem C9_signOut_no_session_witness :
    (⟨some uA, none, some RawStored.empty⟩ : ServiceState).currentSession = none ∧
    signOut cfg0 0 (HttpResult.failure none) ⟨some uA, none, some RawStored.empty⟩ =
      (Except.ok (), false, ⟨none, none, none⟩) :=
  ⟨rfl, C9_signOut_no_session cfg0 0 (HttpResult.failure none) _ rfl⟩

/-- C10: when the current user is null, `isAuthenticated()` short-circuits
(`&&` does not evaluate `getStoredToken()`), returns false, and the whole
state — both subjects and the stored value, even an expired or malformed
one — is exactly unchanged. -/
theorem C10_isAuthenticated_no_user (now : Int) (st : ServiceState)
    (h : st.currentUser = none) :
    isAuthenticated now st = (false, st) := by
  obtain ⟨u, s, raw⟩ := st
  cases u with
  | none => rfl
  | some u0 => exact Option.noConfusion h

/-- C10 (witness): with a null user and an unparseable stored value — which
a read would clear — `isAuthenticated` returns false and leaves the value
in place. -/
theorem C10_isAuthenticated_no_user_witness :
    (⟨none, some sessA, some RawStored.unparseable⟩ : ServiceState).currentUser = none ∧
    isAuthenticated 0 ⟨none, some sessA, some RawStored.unparseable⟩ =
      (false, ⟨none, some sessA, some RawStored.unparseable⟩) :=
  ⟨rfl, C10_isAuthenticated_no_user 0 _ rfl⟩

/-- C4: for every initial state and whether the `DELETE /sessions/{id}`
call succeeds or fails, `signOut` yields no error (`catchError` maps
failures to `of(undefined)`), afterward the user, the session, and the
stored token are all null, and `isAuthenticated()` is false. -/
theorem C4_signOut_clears (cfg : ReownConfig) (now : Int)
    (resp : HttpResult Unit) (st : ServiceState) :
    (signOut cfg now resp st).1 = Except.ok () ∧
    (signOut cfg now resp st).2.2 = ⟨none, none, none⟩ ∧
    (isAuthenticated now (signOut cfg now resp st).2.2).1 = false := by
  obtain ⟨u, s, raw⟩ := st
  cases s <;> cases resp <;> exact ⟨rfl, rfl, rfl⟩

/-- C3: when `signIn` succeeds with a response token expiring after now,
the session is returned, the current user and session equal the response
values, the response token is persisted, and `isAuthenticated()` is
true. -/
theorem C3_signIn_success (cfg : ReownConfig) (now : Int) (r : SignInResponse)
    (st : ServiceState) (h : now < r.token.expiresAt) :
    (signIn cfg now (HttpResult.success r) st).1 = Except.ok r.session ∧
    (signIn cfg now (HttpResult.success r) st).2.currentUser = some r.user ∧
    (signIn cfg now (HttpResult.success r) st).2.currentSession = some r.session ∧
    (signIn cfg now (HttpResult.success r) st).2.storage =
      some (RawStored.dated r.token) ∧
    (isAuthenticated now (signIn cfg now (HttpResult.success r) st).2).1 = true := by
  have hlt : ¬ r.token.expiresAt < now := by omega
  refine ⟨rfl, rfl, rfl, rfl, ?_⟩
  simp [signIn, setToken, isAuthenticated, getStoredToken, hlt, ParsedVal.isTruthy]

/-- C3 (witness): the spec scenario — user id `u1`, session id `s1`, token
`t1` expiring 3600 seconds from now — signed in over a fresh state. -/
theorem C3_signIn_success_witness :
    (0 : Int) < signInRespW.token.expiresAt ∧
    (signIn cfg0 0 (HttpResult.success signInRespW) ⟨none, none, none⟩).2.currentUser =
      some uA ∧
    (isAuthenticated 0
      (signIn cfg0 0 (HttpResult.success signInRespW) ⟨none, none, none⟩).2).1 = true :=
  ⟨by decide,
   (C3_signIn_success cfg0 0 signInRespW ⟨none, none, none⟩ (by decide)).2.1,
   (C3_signIn_success cfg0 0 signInRespW ⟨none, none, none⟩ (by decide)).2.2.2.2⟩

/-- C5 (counterexample): a failed `signIn` from a state holding an expired
stored token does change state: building the request headers calls
`getStoredToken`, which detects the expiry and runs `clearSession()`,
nulling the user, the session, and the storage before the HTTP failure is
even handled. -/
theorem C5_counterexample :
    (signIn cfg0 1 (HttpResult.failure none) stBefore).2 ≠ stBefore ∧
    (signIn cfg0 1 (HttpResult.failure none) stBefore).2 = ⟨none, none, none⟩ ∧
    (signIn cfg0 1 (HttpResult.failure none) stBefore).1 =
      Except.error "Sign in failed" := by
  refine ⟨?_, rfl, rfl⟩
  intro h
  have h2 : (⟨none, none, none⟩ : ServiceState) = stBefore := h ▸ rfl
  exact Option.noConfusion (congrArg ServiceState.currentUser h2)

/-- C5 (amended): a failed `signUp`/`signIn` propagates the normalized
error — the server message when present and non-empty, otherwise the
operation fallback — and performs no state change beyond the header-build
side effect: the resulting state is exactly the post-read state, which
equals the initial state whenever the stored value is absent, empty,
non-token-shaped JSON, or a currently valid token (only an unparseable or
expired stored value gets cleared). -/
theorem C5_failure_amended (cfg : ReownConfig) (now : Int) (msg : Option String)
    (st : ServiceState) :
    (signUp cfg now (HttpResult.failure msg) st).1 =
      Except.error (jsOr msg "Sign up failed") ∧
    (signIn cfg now (HttpResult.failure msg) st).1 =
      Except.error (jsOr msg "Sign in failed") ∧
    (signUp cfg now (HttpResult.failure msg) st).2 = (getStoredToken now st).2 ∧
    (signIn cfg now (HttpResult.failure msg) st).2 = (getStoredToken now st).2 ∧
    (st.storage = none ∨ st.storage = some RawStored.empty ∨
        (∃ tb bb, st.storage = some (RawStored.noDate tb bb)) ∨
        validTokenStoredB now st = true →
      (signUp cfg now (HttpResult.failure msg) st).2 = st ∧
      (signIn cfg now (HttpResult.failure msg) st).2 = st) :=
  ⟨rfl, rfl, rfl, rfl, fun h => ⟨read_pure now st h, read_pure now st h⟩⟩

/-- C5 (witness): failing a sign-up over a currently valid stored token
leaves the state untouched and carries the server message through. -/
theorem C5_failure_amended_witness :
    validTokenStoredB 0 stValid = true ∧
    (signUp cfg0 0 (HttpResult.failure (some "boom")) stValid).2 = stValid ∧
    (signUp cfg0 0 (HttpResult.failure (some "boom")) stValid).1 =
      Except.error (jsOr (some "boom") "Sign up failed") :=
  ⟨rfl,
   ((C5_failure_amended cfg0 0 (some "boom") stValid).2.2.2.2
      (Or.inr (Or.inr (Or.inr rfl)))).1,
   (C5_failure_amended cfg0 0 (some "boom") stValid).1⟩

/-- C6 (counterexample): with a non-null user and a stored value holding
truthy non-token-shaped JSON, `isAuthenticated()` returns true although no
parseable non-expired token is persisted, refuting the claimed
equivalence. -/
theorem C6_counterexample :
    (isAuthenticated 0 stOdd).1 = true ∧ validTokenStoredB 0 stOdd = false :=
  ⟨rfl, rfl⟩

/-- C6 (amended): `isAuthenticated()` is true iff the current user is
non-null and `getStoredToken()` returns a truthy value; whenever the
stored content is not non-token-shaped JSON this coincides with the
presence of a currently valid token; and when the user is non-null the
call performs exactly the read side effect (re-validation that may clear
stale state). -/
theorem C6_isAuthenticated_amended (now : Int) (st : ServiceState) :
    ((isAuthenticated now st).1 = true ↔
      st.currentUser ≠ none ∧
        ∃ v, (getStoredToken now st).1 = some v ∧ v.isTruthy = true) ∧
    ((∀ tb bb, st.storage ≠ some (RawStored.noDate tb bb)) →
      ((isAuthenticated now st).1 = true ↔
        st.currentUser ≠ none ∧ validTokenStoredB now st = true)) ∧
    (st.currentUser ≠ none →
      (isAuthenticated now st).2 = (getStoredToken now st).2) := by
  obtain ⟨u, s, raw⟩ := st
  cases u with
  | none =>
      refine ⟨by simp [isAuthenticated], fun _ => by simp [isAuthenticated],
        fun hne => absurd rfl hne⟩
  | some u0 =>
      rcases raw with _ | (_ | _ | ⟨tb, bb⟩ | tok)
      · exact ⟨by simp [isAuthenticated, getStoredToken],
          fun _ => by simp [isAuthenticated, getStoredToken, validTokenStoredB],
          fun _ => rfl⟩
      · exact ⟨by simp [isAuthenticated, getStoredToken],
          fun _ => by simp [isAuthenticated, getStoredToken, validTokenStoredB],
          fun _ => rfl⟩
      · exact ⟨by simp [isAuthenticated, getStoredToken],
          fun _ => by simp [isAuthenticated, getStoredToken, validTokenStoredB],
          fun _ => rfl⟩
      · exact ⟨by simp [isAuthenticated, getStoredToken, ParsedVal.isTruthy],
          fun hnd => absurd rfl (hnd tb bb),
          fun _ => rfl⟩
      · by_cases hlt : tok.expiresAt < now
        · exact ⟨by simp [isAuthenticated, getStoredToken, hlt],
            fun _ => by
              simp [isAuthenticated, getStoredToken, validTokenStoredB, hlt],
            fun _ => rfl⟩
        · exact ⟨by simp [isAuthenticated, getStoredToken, hlt, ParsedVal.isTruthy],
            fun _ => by
              simp [isAuthenticated, getStoredToken, validTokenStoredB, hlt,
                ParsedVal.isTruthy],
            fun _ => rfl⟩

/-- C6 (witness): over a valid stored token and non-null user the
equivalence and the side-effect equation hold concretely. -/
theorem C6_isAuthenticated_amended_witness :
    ((isAuthenticated 0 stValid).1 = true ↔
      stValid.currentUser ≠ none ∧ validTokenStoredB 0 stValid = true) ∧
    (isAuthenticated 0 stValid).2 = (getStoredToken 0 stValid).2 :=
  ⟨(C6_isAuthenticated_amended 0 stValid).2.1
      (fun _ _ h => RawStored.noConfusion (Option.some.inj h)),
   (C6_isAuthenticated_amended 0 stValid).2.2
      (fun h => Option.noConfusion h)⟩

/-- C8 (counterexample): with truthy non-token-shaped JSON stored, the
built headers carry `Authorization: Bearer undefined` although no
parseable non-expired token is persisted, refuting "exactly when a
currently-valid token is stored". -/
theorem C8_counterexample :
    (getHeaders cfg0 0 stOdd).1.authorization =
      some ("Bearer " ++ "undefined") ∧
    validTokenStoredB 0 stOdd = false :=
  ⟨rfl, rfl⟩

/-- C8 (amended): headers always carry `Content-Type: application/json`
and `X-API-Key` (the configured key); `X-Organization-ID` exactly when a
non-empty organization id is configured; `Authorization` exactly when the
call-time token read returns a truthy value — in particular
`Bearer <token>` for every stored non-expired dated token — and that
condition coincides with a currently valid persisted token whenever the
stored content is not non-token-shaped JSON. -/
theorem C8_headers_amended (cfg : ReownConfig) (now : Int) (st : ServiceState) :
    (getHeaders cfg now st).1.contentType = "application/json" ∧
    (getHeaders cfg now st).1.xApiKey = cfg.apiKey ∧
    ((getHeaders cfg now st).1.xOrganizationId ≠ none ↔
      ∃ o, cfg.organizationId = some o ∧ o ≠ "") ∧
    ((getHeaders cfg now st).1.authorization ≠ none ↔
      ∃ v, (getStoredToken now st).1 = some v ∧ v.isTruthy = true) ∧
    (∀ tok, st.storage = some (RawStored.dated tok) → ¬ tok.expiresAt < now →
      (getHeaders cfg now st).1.authorization =
        some ("Bearer " ++ tok.token)) ∧
    ((∀ tb bb, st.storage ≠ some (RawStored.noDate tb bb)) →
      ((getHeaders cfg now st).1.authorization ≠ none ↔
        validTokenStoredB now st = true)) := by
  obtain ⟨u, s, raw⟩ := st
  refine ⟨rfl, rfl, ?_, ?_, ?_, ?_⟩
  · rcases cfg with ⟨a, o, e, bu⟩
    rcases o with _ | o0
    · simp [getHeaders]
    · by_cases he : o0.isEmpty
      · rw [String.isEmpty_iff] at he
        subst he
        simp [getHeaders, String.isEmpty_iff]
      · have hne : o0 ≠ "" := fun h => he (String.isEmpty_iff o0 |>.mpr h)
        simp [getHeaders, String.isEmpty_iff, hne]
  · rcases raw with _ | (_ | _ | ⟨tb, bb⟩ | tok)
    · simp [getHeaders, getStoredToken]
    · simp [getHeaders, getStoredToken]
    · simp [getHeaders, getStoredToken]
    · cases tb <;>
        simp [getHeaders, getStoredToken, ParsedVal.isTruthy]
    · by_cases hlt : tok.expiresAt < now
      · simp [getHeaders, getStoredToken, hlt]
      · simp [getHeaders, getStoredToken, hlt, ParsedVal.isTruthy]
  · intro tok hst hlt
    have : raw = some (RawStored.dated tok) := hst
    subst this
    simp [getHeaders, getStoredToken, hlt, ParsedVal.isTruthy, ParsedVal.bearerStr]
  · intro hnd
    rcases raw with _ | (_ | _ | ⟨tb, bb⟩ | tok)
    · simp [getHeaders, getStoredToken, validTokenStoredB]
    · simp [getHeaders, getStoredToken, validTokenStoredB]
    · simp [getHeaders, getStoredToken, validTokenStoredB]
    · exact absurd rfl (hnd tb bb)
    · by_cases hlt : tok.expiresAt < now
      · simp [getHeaders, getStoredToken, validTokenStoredB, hlt]
      · simp [getHeaders, getStoredToken, validTokenStoredB, hlt,
          ParsedVal.isTruthy]

/-- C8 (witness): concrete headers over a configured organization id and a
valid stored token: the bearer header carries the stored token string and
matches token validity. -/
theorem C8_headers_amended_witness :
    stValid.storage = some (RawStored.dated ⟨"tk", 99⟩) ∧
    ¬ (⟨"tk", 99⟩ : ReownToken).expiresAt < 0 ∧
    (getHeaders cfgOrg 0 stValid).1.authorization = some ("Bearer " ++ "tk") ∧
    ((getHeaders cfgOrg 0 stValid).1.authorization ≠ none ↔
      validTokenStoredB 0 stValid = true) :=
  ⟨rfl, by decide,
   (C8_headers_amended cfgOrg 0 stValid).2.2.2.2.1 ⟨"tk", 99⟩ rfl (by decide),
   (C8_headers_amended cfgOrg 0 stValid).2.2.2.2.2
      (fun _ _ h => RawStored.noConfusion (Option.some.inj h))⟩

/-- C2 (counterexample): the invariant is only best-effort.  From a fresh
construction over empty storage, a single successful `signUp` at time 10
whose response token already expired at time 5 is stored unconditionally:
the reachable state has a non-null current user while no non-expired token
exists in persistence. -/
theorem C2_counterexample :
    Reachable cfg0 10 badState ∧
    badState.currentUser = some uA ∧
    badState.currentUser ≠ none ∧
    validTokenStoredB 10 badState = false :=
  ⟨Reachable.step (Reachable.init none 0)
      (Step.signUpStep 10 (HttpResult.success { user := uA, token := tokPast })
        (constructorInit none 0)),
   rfl, fun h => Option.noConfusion h, rfl⟩

/-- Preservation: each guarded operation step re-establishes the session
invariant at its own time.  Header building re-validates the stored token,
so a token valid at the earlier time is either still valid now or the
read clears the user along with it. -/
theorem gstep_preserves (cfg : ReownConfig) {t now : Int} {st stp : ServiceState}
    (ih : SessionInv t st) (h : GStep cfg now st stp) : SessionInv now stp := by
  cases h with
  | signUpOk r =>
      rename_i hv
      intro _
      show (if r.token.expiresAt < now then false else true) = true
      rw [if_neg hv]
  | signUpFail msg =>
      exact sessionInv_read t now st ih
  | signInOk r =>
      rename_i hv
      intro _
      show (if r.token.expiresAt < now then false else true) = true
      rw [if_neg hv]
  | signInFail msg =>
      exact sessionInv_read t now st ih
  | signOutStep resp =>
      intro hne
      exfalso
      apply hne
      obtain ⟨u, s, raw⟩ := st
      cases s <;> cases resp <;> rfl
  | getUserOk u =>
      rename_i hv
      intro _
      have h2 := read_state_of_valid now st hv
      show validTokenStoredB now
        { (getHeaders cfg now st).2 with currentUser := some u } = true
      rw [getHeaders_snd, h2]
      exact hv
  | getUserFail msg =>
      exact sessionInv_read t now st ih
  | updateUserOk u =>
      rename_i hv
      intro _
      have h2 := read_state_of_valid now st hv
      show validTokenStoredB now
        { (getHeaders cfg now st).2 with currentUser := some u } = true
      rw [getHeaders_snd, h2]
      exact hv
  | updateUserFail msg =>
      exact sessionInv_read t now st ih
  | requestPasswordResetStep resp =>
      cases resp <;> exact sessionInv_read t now st ih
  | resetPasswordStep resp =>
      cases resp <;> exact sessionInv_read t now st ih
  | isAuthenticatedStep =>
      obtain ⟨u, s, raw⟩ := st
      cases u with
      | none => intro hne; exact absurd rfl hne
      | some u0 => exact sessionInv_read t now ⟨some u0, s, raw⟩ ih
  | readStep =>
      exact sessionInv_read t now st ih

/-- C2 (amended): the invariant holds for every reachable state, evaluated
at the time of the last operation, under the environment assumptions of
`GStep`: successful sign-up/sign-in responses carry a not-yet-expired
token, and get/update user succeed only when a valid token is persisted at
call time.  Without those assumptions it fails (see the counterexample). -/
theorem C2_invariant_amended (cfg : ReownConfig) (t : Int) (st : ServiceState)
    (h : GReachable cfg t st) : SessionInv t st := by
  induction h with
  | init raw t0 =>
      exact sessionInv_read t0 t0 _ (fun hne => absurd rfl hne)
  | step h1 h2 ih =>
      exact gstep_preserves cfg ih h2

/-- C2 (witness): the invariant at the state reached by constructing over
empty storage and signing in with a token valid for an hour. -/
theorem C2_invariant_amended_witness :
    SessionInv 0
      (signIn cfg0 0 (HttpResult.success signInRespW) (constructorInit none 0)).2 :=
  C2_invariant_amended cfg0 0 _
    (GReachable.step (GReachable.init none 0)
      (GStep.signInOk 0 signInRespW (constructorInit none 0) (by decide)))
